import Mathlib

/-!
Shallow embedding of the firebase-token crate (src/verifier.rs, src/jwk.rs,
src/jwk_auth.rs, src/lib.rs): a JWK-based verifier for Firebase identity
tokens with a background-refreshed key cache.

External collaborators (the jsonwebtoken JWT library, the reqwest HTTP
client, the tokio runtime) are out of scope of the source and are modelled
at the boundary: a token is represented by the information the JWT library
extracts from it (parsed header, parsed claims, the key material and
algorithm its signature verifies under), an HTTP response by its
caching-control header and the parse result of its body, and the current
time is an explicit parameter.
-/

namespace FirebaseToken

/-- One JSON Web Key, as in `Jwk` of src/jwk.rs (field `r#use` is `use_`). -/
structure Jwk where
  e : String
  alg : String
  kty : String
  kid : String
  n : String
  use_ : String
deriving DecidableEq, Repr

/-- Result of one fetch, as in `Jwks` of src/jwk.rs.  `validity` is the
time-to-live in whole seconds (the source stores a `Duration` built with
`Duration::from_secs`). -/
structure Jwks where
  keys : List Jwk
  validity : Nat
deriving DecidableEq, Repr

/-- Fetch failure taxonomy, as in `KeyFetchError` of src/jwk.rs (the
misspelling `ReponseBodyError` is the source's).  The wrapped
`reqwest::Error` payloads are opaque collaborator values and are dropped. -/
inductive KeyFetchError where
  | RequestError
  | ReponseBodyError
deriving DecidableEq, Repr

/-- The baseline claims shape, as in `BasicClaims` of src/verifier.rs. -/
structure BasicClaims where
  aud : String
  exp : Int
  iss : String
  sub : String
  iat : Int
deriving DecidableEq, Repr

/-- The verification failure taxonomy, as in `VerificationError` of
src/verifier.rs. -/
inductive VerificationError where
  | InvalidSignature
  | InvalidDecodingKey
  | UnknownKeyAlgorithm
deriving DecidableEq, Repr

/-- Audience/issuer pair, as in `JwkConfig` of src/verifier.rs. -/
structure JwkConfig where
  audience : String
  issuer : String
deriving DecidableEq, Repr

/-- Verifier state, as in `JwkVerifier` of src/verifier.rs.  The
`HashMap<String, Jwk>` is modelled extensionally as a lookup function. -/
structure JwkVerifier where
  keys : String → Option Jwk
  config : JwkConfig

/-- `keys_to_map` of src/verifier.rs: fold the key list into a map,
inserting each key under its `kid`; a later insert overrides an earlier
one, so on duplicate `kid` the last list entry wins. -/
def keys_to_map (keys : List Jwk) : String → Option Jwk :=
  keys.foldl (fun m key => fun k => if k = key.kid then some key else m k)
    (fun _ => none)

/-- `JwkVerifier::new` of src/verifier.rs. -/
def JwkVerifier.new (keys : List Jwk) (audience : String) (issuer : String) :
    JwkVerifier :=
  { keys := keys_to_map keys, config := { audience := audience, issuer := issuer } }

/-- `JwkVerifier::get_key` of src/verifier.rs. -/
def JwkVerifier.get_key (self : JwkVerifier) (key_id : String) : Option Jwk :=
  self.keys key_id

/-- `JwkVerifier::set_keys` of src/verifier.rs: wholesale replacement of
the key map; the config is untouched. -/
def JwkVerifier.set_keys (self : JwkVerifier) (keys : List Jwk) : JwkVerifier :=
  { self with keys := keys_to_map keys }

/-! Boundary model of the jsonwebtoken library. -/

/-- The signature algorithms the jsonwebtoken library recognises
(`jsonwebtoken::Algorithm`). -/
inductive Algorithm where
  | HS256 | HS384 | HS512
  | ES256 | ES384
  | RS256 | RS384 | RS512
  | PS256 | PS384 | PS512
  | EdDSA
deriving DecidableEq, Repr

/-- `Algorithm::from_str` of the jsonwebtoken library: resolve an
algorithm name; unrecognised names fail. -/
def Algorithm.from_str (s : String) : Option Algorithm :=
  if s = "HS256" then some .HS256
  else if s = "HS384" then some .HS384
  else if s = "HS512" then some .HS512
  else if s = "ES256" then some .ES256
  else if s = "ES384" then some .ES384
  else if s = "RS256" then some .RS256
  else if s = "RS384" then some .RS384
  else if s = "RS512" then some .RS512
  else if s = "PS256" then some .PS256
  else if s = "PS384" then some .PS384
  else if s = "PS512" then some .PS512
  else if s = "EdDSA" then some .EdDSA
  else none

/-- A token header, as the jsonwebtoken library parses it: the `kid` it
may carry. -/
structure Header where
  kid : Option String
deriving DecidableEq, Repr

/-- Boundary model of a token string: the data the jsonwebtoken library
can extract from it.  `header` is `none` when the header does not parse;
`claims` is `none` when the payload does not deserialize; `sigAlg`,
`sigN`, `sigE` are the algorithm and RSA key material the token's
signature cryptographically verifies under, provided `sigValid` is true
(a token with garbage signature bytes has `sigValid = false`). -/
structure Token where
  header : Option Header
  claims : Option BasicClaims
  sigAlg : Algorithm
  sigN : String
  sigE : String
  sigValid : Bool
deriving DecidableEq, Repr

/-- Successfully decoded token data, as in `jsonwebtoken::TokenData`
(the header copy is dropped; only the claims are consumed). -/
structure TokenData where
  claims : BasicClaims
deriving DecidableEq, Repr

/-- A decoding key built from RSA components, as in
`jsonwebtoken::DecodingKey`. -/
structure DecodingKey where
  n : String
  e : String
deriving DecidableEq, Repr

/-- `DecodingKey::from_rsa_components` of the jsonwebtoken library:
construction fails on malformed component strings; malformedness of the
base64url data is abstracted as emptiness. -/
def from_rsa_components (n : String) (e : String) : Option DecodingKey :=
  if n = "" ∨ e = "" then none else some { n := n, e := e }

/-- Validation settings, as built in `decode_token_with_key`:
`Validation::new(algorithm)` then `set_audience` and `set_issuer` with
one expected value each. -/
structure Validation where
  alg : Algorithm
  aud : String
  iss : String
deriving DecidableEq, Repr

/-- `jsonwebtoken::decode_header`: parse the unverified header. -/
def decode_header (token : Token) : Option Header :=
  token.header

/-- `jsonwebtoken::decode` at the boundary: succeeds exactly when the
payload deserializes, the signature is cryptographically valid under the
given key and the validation's algorithm, the audience and issuer claims
equal the expected ones, and the token is not expired at the given time
(the standard `exp` check the library performs). -/
def decode (token : Token) (key : DecodingKey) (validation : Validation)
    (now : Int) : Option TokenData :=
  match token.claims with
  | none => none
  | some c =>
    if token.sigValid = true ∧ token.sigAlg = validation.alg ∧
        token.sigN = key.n ∧ token.sigE = key.e ∧
        c.aud = validation.aud ∧ c.iss = validation.iss ∧ now < c.exp then
      some { claims := c }
    else
      none

/-- `JwkVerifier::decode_token_with_key` of src/verifier.rs: resolve the
key's algorithm, build the validation from the stored config, build the
decoding key from the key's RSA components, then decode.  `now` makes the
library's implicit clock explicit. -/
def JwkVerifier.decode_token_with_key (self : JwkVerifier) (key : Jwk)
    (token : Token) (now : Int) : Except VerificationError TokenData :=
  match Algorithm.from_str key.alg with
  | none => .error .UnknownKeyAlgorithm
  | some algorithm =>
    let validation : Validation :=
      { alg := algorithm, aud := self.config.audience, iss := self.config.issuer }
    match from_rsa_components key.n key.e with
    | none => .error .InvalidDecodingKey
    | some dkey =>
      match decode token dkey validation now with
      | some token_data => .ok token_data
      | none => .error .InvalidSignature

/-- `JwkVerifier::verify` of src/verifier.rs: header parse, `kid`
extraction, key lookup, then the signature/claims check; every failure
collapses to `none`. -/
def JwkVerifier.verify (self : JwkVerifier) (token : Token) (now : Int) :
    Option TokenData :=
  match (decode_header token).map Header.kid with
  | some (some token_kid) =>
    match self.get_key token_kid with
    | some jwk_key =>
      match self.decode_token_with_key jwk_key token now with
      | .ok token_data => some token_data
      | .error _ => none
    | none => none
  | _ => none

/-! Boundary model of the HTTP fetch (src/jwk.rs).  A reachable
endpoint's answer is a `Response`; transport failure is the absence of
one. -/

/-- An HTTP response at the boundary: the value of its caching-control
header when present, and the result of parsing its body into the
key-set shape (`none` when the body does not parse into
`KeyResponse = \x7b keys: [Jwk...] \x7d`). -/
structure Response where
  cacheControl : Option String
  body : Option (List Jwk)
deriving DecidableEq, Repr

/-- `DEFAULT_TIMEOUT` of src/jwk.rs: 60 seconds. -/
def DEFAULT_TIMEOUT : Nat := 60

/-- Split a character list at commas (structural helper for the
directive parsing of `get_max_age`). -/
def splitOnComma : List Char → List Char → List (List Char)
  | [], acc => [acc.reverse]
  | c :: rest, acc =>
    if c = ',' then acc.reverse :: splitOnComma rest []
    else splitOnComma rest (c :: acc)

/-- Drop leading spaces of a character list. -/
def dropLeadingSpaces : List Char → List Char
  | [] => []
  | c :: rest => if c = ' ' then dropLeadingSpaces rest else c :: rest

/-- Trim spaces at both ends of a character list. -/
def trimChars (cs : List Char) : List Char :=
  ((dropLeadingSpaces (dropLeadingSpaces cs).reverse)).reverse

/-- Parse a nonempty all-digit character list as a decimal `Nat`. -/
def parseNatDigitsAux : List Char → Nat → Option Nat
  | [], acc => some acc
  | c :: rest, acc =>
    if c.isDigit then parseNatDigitsAux rest (acc * 10 + (c.toNat - 48))
    else none

/-- Parse a decimal number; fails on the empty list or any non-digit. -/
def parseNatDigits (cs : List Char) : Option Nat :=
  match cs with
  | [] => none
  | _ => parseNatDigitsAux cs 0

/-- Modelled from the spec: src/header_parser.rs (`get_max_age`) is
declared in src/lib.rs but its source is not available.  Per the spec, it
extracts a cache-lifetime hint from the response's caching-control
metadata: a directive of the form max-age=N among comma-separated
directives; absent or unparsable yields `none`. -/
def get_max_age (cacheControl : Option String) : Option Nat :=
  match cacheControl with
  | none => none
  | some s =>
    (splitOnComma s.data []).findSome? fun d =>
      let t := trimChars d
      if ([ 'm', 'a', 'x', '-', 'a', 'g', 'e', '=' ] : List Char).isPrefixOf t then
        parseNatDigits (t.drop 8)
      else
        none

/-- `JwkFetcher::fetch_keys` of src/jwk.rs: a failed transport is
`RequestError`; otherwise the validity is the response's max-age or the
60-second default, and a body that does not parse into the key-set shape
is `ReponseBodyError`; on success the keys and validity are returned.
The network is at the boundary: the argument is the transport outcome. -/
def fetch_keys (response : Option Response) : Except KeyFetchError Jwks :=
  match response with
  | none => .error .RequestError
  | some resp =>
    let max_age := (get_max_age resp.cacheControl).getD DEFAULT_TIMEOUT
    match resp.body with
    | none => .error .ReponseBodyError
    | some keys => .ok { keys := keys, validity := max_age }

/-! src/jwk_auth.rs: the auth coordinator. -/

/-- `ISSUER_URL` of src/jwk_auth.rs. -/
def ISSUER_URL : String := "https://securetoken.google.com/"

/-- `DEFAULT_PUBKEY_URL` of src/jwk_auth.rs. -/
def DEFAULT_PUBKEY_URL : String :=
  "https://www.googleapis.com/service_accounts/v1/jwk/securetoken@system.gserviceaccount.com"

/-- `JwkAuth` of src/jwk_auth.rs; the `Arc<Mutex<_>>` protecting the
verifier is a concurrency wrapper and is dropped in the sequential
model. -/
structure JwkAuth where
  verifier : JwkVerifier

/-- Outcome of `JwkAuth` construction: the source either returns the
value or panics (aborts) inside `new_with_url`; it never returns an
error value. -/
inductive ConstructOutcome where
  | constructed (auth : JwkAuth)
  | panicked

/-- `JwkAuth::new_with_url` of src/jwk_auth.rs: derive issuer and
audience from the project id, perform the one initial fetch (its outcome
is the explicit `fetch_result` argument; `pubkey_url` only feeds the
fetcher), panic on fetch failure, otherwise build the verifier from the
fetched keys. -/
def JwkAuth.new_with_url (project_id : String) (pubkey_url : String)
    (fetch_result : Except KeyFetchError Jwks) : ConstructOutcome :=
  let issuer := ISSUER_URL ++ project_id
  let audience := project_id
  let _ := pubkey_url
  match fetch_result with
  | .error _ => .panicked
  | .ok jwk_keys =>
    .constructed { verifier := JwkVerifier.new jwk_keys.keys audience issuer }

/-- `JwkAuth::new` of src/jwk_auth.rs: `new_with_url` at the default
public-key endpoint. -/
def JwkAuth.new (project_id : String)
    (fetch_result : Except KeyFetchError Jwks) : ConstructOutcome :=
  JwkAuth.new_with_url project_id DEFAULT_PUBKEY_URL fetch_result

/-- One iteration of the background refresh loop of
`JwkAuth::start_periodic_key_update` (src/jwk_auth.rs): on a successful
fetch, replace the verifier's keys via `set_keys` and report the fetched
validity as the sleep delay; on failure, leave the verifier unchanged
and report the fixed 10-second delay. -/
def periodic_key_update_step (verifier : JwkVerifier)
    (fetch_result : Except KeyFetchError Jwks) : JwkVerifier × Nat :=
  match fetch_result with
  | .ok jwk_keys => (verifier.set_keys jwk_keys.keys, jwk_keys.validity)
  | .error _ => (verifier, 10)

/-- The refresh loop run against a finite schedule of fetch outcomes:
it consumes every outcome in order, applying one step per iteration; no
outcome, in particular no failure, stops the traversal early. -/
def run_key_update (verifier : JwkVerifier) :
    List (Except KeyFetchError Jwks) → JwkVerifier
  | [] => verifier
  | r :: rs => run_key_update (periodic_key_update_step verifier r).1 rs

/-! Concrete values used by witnesses. -/

/-- A sample RS256 key with kid-0, mirroring the repository's test keys. -/
def jwk0 : Jwk :=
  { e := "AQAB", alg := "RS256", kty := "RSA", kid := "kid-0",
    n := "n-string", use_ := "sig" }

/-- A second sample key with kid-1. -/
def jwk1 : Jwk :=
  { e := "AQAB", alg := "RS256", kty := "RSA", kid := "kid-1",
    n := "n-string-2", use_ := "sig" }

/-- A sample verifier holding only `jwk0`, expecting audience aud and
issuer iss. -/
def sampleVerifier : JwkVerifier :=
  JwkVerifier.new [jwk0] ("aud") ("iss")

/-- Claims matching `sampleVerifier`'s config, expiring at time 100. -/
def sampleClaims : BasicClaims :=
  { aud := "aud", exp := 100, iss := "iss", sub := "sub", iat := 0 }

/-- A token `sampleVerifier` accepts at time 0: parses, carries kid-0,
and its signature verifies under `jwk0`'s algorithm and material. -/
def goodToken : Token :=
  { header := some { kid := some ("kid-0") },
    claims := some sampleClaims,
    sigAlg := .RS256, sigN := "n-string", sigE := "AQAB", sigValid := true }

/-- A token whose header does not parse. -/
def badHeaderToken : Token :=
  { header := none, claims := some sampleClaims,
    sigAlg := .RS256, sigN := "n-string", sigE := "AQAB", sigValid := true }

/-- A token whose parsed header carries no kid. -/
def noKidToken : Token :=
  { header := some { kid := none }, claims := some sampleClaims,
    sigAlg := .RS256, sigN := "n-string", sigE := "AQAB", sigValid := true }

/-- A token carrying a kid absent from `sampleVerifier`'s map. -/
def unknownKidToken : Token :=
  { header := some { kid := some ("kid-9") }, claims := some sampleClaims,
    sigAlg := .RS256, sigN := "n-string", sigE := "AQAB", sigValid := true }

/-- A second key sharing kid-0 with `jwk0` but different material, to
exercise last-entry-wins on duplicate kid. -/
def jwk0v2 : Jwk :=
  { e := "AQAB", alg := "RS256", kty := "RSA", kid := "kid-0",
    n := "n-string-other", use_ := "sig" }

/-- A response carrying the repository test's caching-control header and
a well-formed key-set body. -/
def respWithMaxAge : Response :=
  { cacheControl := some ("public, max-age=20045, must-revalidate, no-transform"),
    body := some [jwk0, jwk1] }

/-- A response with no max-age directive and a well-formed body. -/
def respNoDirective : Response :=
  { cacheControl := some ("public, must-revalidate"), body := some [jwk0, jwk1] }

/-- A reachable response whose body does not parse into the key-set
shape. -/
def respBadBody : Response :=
  { cacheControl := none, body := none }

/-- A sample fetched key set. -/
def jwksSample : Jwks := { keys := [jwk0, jwk1], validity := 20045 }

/-! Helper lemmas about the key map. -/

/-- The fold of `keys_to_map`, over any initial map: the entry for a kid
is the last key of the list with that kid, else the initial map's entry. -/
theorem keys_to_map_foldl (L : List Jwk) (m : String → Option Jwk) (kid : String) :
    L.foldl (fun m key => fun k => if k = key.kid then some key else m k) m kid
      = match L.reverse.find? (fun k => k.kid == kid) with
        | some k => some k
        | none => m kid := by
  induction L generalizing m with
  | nil => simp
  | cons key rest ih =>
    simp only [List.foldl_cons, List.reverse_cons, List.find?_append]
    rw [ih]
    cases hfind : rest.reverse.find? (fun k => k.kid == kid) with
    | some k => simp
    | none =>
      simp only [Option.none_orElse, List.find?_cons, List.find?_nil]
      by_cases h : key.kid = kid
      · simp [h]
      · have hne : ¬(kid = key.kid) := fun hc => h hc.symm
        have hb : (key.kid == kid) = false := beq_eq_false_iff_ne.mpr h
        simp [hne, hb]

/-- `keys_to_map` looks up the last key of the list with the given kid. -/
theorem keys_to_map_eq_find (L : List Jwk) (kid : String) :
    keys_to_map L kid = L.reverse.find? (fun k => k.kid == kid) := by
  rw [keys_to_map, keys_to_map_foldl]
  cases h : L.reverse.find? (fun k => k.kid == kid) <;> simp

/-- A kid occurring in the list is found by the reverse search. -/
theorem find_reverse_isSome_of_mem (L : List Jwk) (kid : String)
    (h : kid ∈ L.map Jwk.kid) :
    (L.reverse.find? (fun k => k.kid == kid)).isSome := by
  obtain ⟨k0, hk0, hkid⟩ := List.mem_map.mp h
  rw [List.find?_isSome]
  exact ⟨k0, List.mem_reverse.mpr hk0, by simp [hkid]⟩

/-- `keys_to_map` resolves every kid of the list to a key of the list
with that kid, namely the last such entry. -/
theorem keys_to_map_resolves (L : List Jwk) (kid : String)
    (h : kid ∈ L.map Jwk.kid) :
    ∃ k, keys_to_map L kid = some k ∧
      L.reverse.find? (fun j => j.kid == kid) = some k ∧ k ∈ L ∧ k.kid = kid := by
  obtain ⟨k, hk⟩ := Option.isSome_iff_exists.mp (find_reverse_isSome_of_mem L kid h)
  refine ⟨k, ?_, hk, ?_, ?_⟩
  · rw [keys_to_map_eq_find]
    exact hk
  · exact List.mem_reverse.mp (List.mem_of_find?_eq_some hk)
  · have := List.find?_some hk
    simpa using this

/-- A kid occurring in no key of the list is unresolvable. -/
theorem keys_to_map_none_of_not_mem (L : List Jwk) (kid : String)
    (h : kid ∉ L.map Jwk.kid) :
    keys_to_map L kid = none := by
  rw [keys_to_map_eq_find, List.find?_eq_none]
  intro k hk hbeq
  exact h (List.mem_map.mpr ⟨k, List.mem_reverse.mp hk, by simpa using hbeq⟩)

/-- Claim C4: a verifier built by `new(L, audience, issuer)` resolves
every kid occurring in L via `get_key` to the corresponding key of L,
and on duplicate kid the last occurrence in the list wins (the resolved
key is the last entry of L with that kid). -/
theorem new_resolves_kid_last_wins (L : List Jwk) (a i kid : String)
    (h : kid ∈ L.map Jwk.kid) :
    ∃ k, (JwkVerifier.new L a i).get_key kid = some k ∧
      L.reverse.find? (fun j => j.kid == kid) = some k ∧ k ∈ L ∧ k.kid = kid :=
  keys_to_map_resolves L kid h

/-- Witness for C4: on the duplicate-kid list [jwk0, jwk0v2] the kid
kid-0 resolves, and to the later entry jwk0v2. -/
theorem new_resolves_kid_last_wins_witness :
    ∃ k, (JwkVerifier.new [jwk0, jwk0v2] ("aud") ("iss")).get_key ("kid-0") = some k ∧
      ([jwk0, jwk0v2] : List Jwk).reverse.find? (fun j => j.kid == "kid-0") = some k ∧
      k ∈ ([jwk0, jwk0v2] : List Jwk) ∧ k.kid = "kid-0" :=
  new_resolves_kid_last_wins [jwk0, jwk0v2] ("aud") ("iss") ("kid-0") (by decide)

/-- Claim C3: `set_keys` replaces the key map wholesale rather than
merging: after `set_keys L2` on a verifier built from L1, a kid
occurring only in L1 is unresolvable, and every kid occurring in L2
resolves to its (last) key from L2. -/
theorem set_keys_replaces_wholesale (L1 L2 : List Jwk) (a i kid : String) :
    (kid ∈ L1.map Jwk.kid → kid ∉ L2.map Jwk.kid →
        ((JwkVerifier.new L1 a i).set_keys L2).get_key kid = none)
    ∧ (kid ∈ L2.map Jwk.kid →
        ∃ k, k ∈ L2 ∧ k.kid = kid ∧
          ((JwkVerifier.new L1 a i).set_keys L2).get_key kid = some k) := by
  constructor
  · intro _ h2
    exact keys_to_map_none_of_not_mem L2 kid h2
  · intro h2
    obtain ⟨k, hmap, _, hmem, hkid⟩ := keys_to_map_resolves L2 kid h2
    exact ⟨k, hmem, hkid, hmap⟩

/-- Witness for C3: after replacing [jwk0] with [jwk1], kid-0 no longer
resolves and kid-1 resolves to jwk1. -/
theorem set_keys_replaces_wholesale_witness :
    ((JwkVerifier.new [jwk0] ("aud") ("iss")).set_keys [jwk1]).get_key ("kid-0") = none
    ∧ ∃ k, k ∈ ([jwk1] : List Jwk) ∧ k.kid = "kid-1" ∧
        ((JwkVerifier.new [jwk0] ("aud") ("iss")).set_keys [jwk1]).get_key ("kid-1") = some k :=
  ⟨(set_keys_replaces_wholesale [jwk0] [jwk1] ("aud") ("iss") ("kid-0")).1
      (by decide) (by decide),
    (set_keys_replaces_wholesale [jwk0] [jwk1] ("aud") ("iss") ("kid-1")).2
      (by decide)⟩

/-- Claim C10: a verifier whose key map is empty, whether built from the
empty key list or reached through `set_keys` with the empty list,
returns no claims from `verify` for every token and every time: the kid
lookup fails before any signature work. -/
theorem empty_key_map_rejects_all (a i : String) (v : JwkVerifier)
    (t : Token) (now : Int) :
    (JwkVerifier.new [] a i).verify t now = none
    ∧ (v.set_keys []).verify t now = none := by
  have hgen : ∀ (w : JwkVerifier), (∀ kid, w.get_key kid = none) →
      w.verify t now = none := by
    intro w hw
    unfold JwkVerifier.verify
    cases ht : decode_header t with
    | none => rfl
    | some h =>
      cases hk : h.kid with
      | none => simp [hk]
      | some kid => simp [hk, hw kid]
  exact ⟨hgen _ (fun kid => rfl), hgen _ (fun kid => rfl)⟩

/-- Claim C7: one loop iteration of the background refresh replaces the
verifier's keys via `set_keys` and reports the fetched validity as the
sleep delay on success, keeps the verifier and reports the fixed
10-second delay on failure; and the loop run over any outcome schedule
steps through every outcome — a failure continues the loop with the
state unchanged, never terminating it. -/
theorem periodic_update_loop_behavior (v : JwkVerifier) (jwks : Jwks)
    (e : KeyFetchError) (r : Except KeyFetchError Jwks)
    (rs : List (Except KeyFetchError Jwks)) :
    periodic_key_update_step v (.ok jwks) = (v.set_keys jwks.keys, jwks.validity)
    ∧ periodic_key_update_step v (.error e) = (v, 10)
    ∧ run_key_update v (r :: rs) = run_key_update (periodic_key_update_step v r).1 rs
    ∧ run_key_update v (.error e :: rs) = run_key_update v rs
    ∧ run_key_update v [] = v :=
  ⟨rfl, rfl, rfl, rfl, rfl⟩

/-- Claim C9: construction via `new_with_url` and `new` stores in the
verifier's config an issuer equal to the fixed issuer-URL prefix
concatenated with the project id and an audience equal to the project
id; and the config is never changed afterwards (`set_keys` keeps it). -/
theorem construction_derives_config (pid url : String) (jwks : Jwks)
    (v : JwkVerifier) (L : List Jwk) :
    (∃ a, JwkAuth.new_with_url pid url (.ok jwks) = .constructed a
        ∧ a.verifier.config.audience = pid
        ∧ a.verifier.config.issuer = ISSUER_URL ++ pid)
    ∧ (∃ a, JwkAuth.new pid (.ok jwks) = .constructed a
        ∧ a.verifier.config.audience = pid
        ∧ a.verifier.config.issuer = ISSUER_URL ++ pid)
    ∧ (v.set_keys L).config = v.config :=
  ⟨⟨_, rfl, rfl, rfl⟩, ⟨_, rfl, rfl, rfl⟩, rfl⟩

/-- Claim C1: when a token's kid resolves to a cached key, `verify`
returns claims only if the token's signature verifies under the resolved
algorithm and that key's RSA material, the audience claim equals the
stored audience, the issuer claim equals the stored issuer, and the
token is not expired; in particular a valid signature with a matching
kid but mismatched audience or issuer is rejected. -/
theorem verify_requires_signature_audience_issuer_expiry
    (v : JwkVerifier) (t : Token) (now : Int) (kid : String) (key : Jwk)
    (td : TokenData)
    (hkid : (decode_header t).map Header.kid = some (some kid))
    (hkey : v.get_key kid = some key)
    (hv : v.verify t now = some td) :
    ∃ alg, Algorithm.from_str key.alg = some alg ∧
      t.sigValid = true ∧ t.sigAlg = alg ∧ t.sigN = key.n ∧ t.sigE = key.e ∧
      t.claims = some td.claims ∧
      td.claims.aud = v.config.audience ∧ td.claims.iss = v.config.issuer ∧
      now < td.claims.exp := by
  unfold JwkVerifier.verify at hv
  simp only [hkid, hkey] at hv
  cases hres : v.decode_token_with_key key t now with
  | error err => simp [hres] at hv
  | ok td' =>
    simp only [hres] at hv
    have htd : td' = td := Option.some.inj hv
    subst htd
    unfold JwkVerifier.decode_token_with_key at hres
    cases halg : Algorithm.from_str key.alg with
    | none => simp [halg] at hres
    | some alg =>
      simp only [halg] at hres
      cases hdk : from_rsa_components key.n key.e with
      | none => simp [hdk] at hres
      | some dkey =>
        simp only [hdk] at hres
        have hdkey : dkey.n = key.n ∧ dkey.e = key.e := by
          unfold from_rsa_components at hdk
          by_cases hne : key.n = "" ∨ key.e = ""
          · rw [if_pos hne] at hdk; exact absurd hdk (by simp)
          · rw [if_neg hne] at hdk
            cases hdk
            exact ⟨rfl, rfl⟩
        unfold decode at hres
        cases hc : t.claims with
        | none => simp [hc] at hres
        | some c =>
          simp only [hc] at hres
          by_cases hcond : t.sigValid = true ∧ t.sigAlg = alg ∧
              t.sigN = dkey.n ∧ t.sigE = dkey.e ∧
              c.aud = v.config.audience ∧ c.iss = v.config.issuer ∧ now < c.exp
          · obtain ⟨h1, h2, h3, h4, h5, h6, h7⟩ := hcond
            have hif : (if t.sigValid = true ∧ t.sigAlg = alg ∧
                t.sigN = dkey.n ∧ t.sigE = dkey.e ∧
                c.aud = v.config.audience ∧ c.iss = v.config.issuer ∧
                now < c.exp then some (TokenData.mk c) else none)
                  = some (TokenData.mk c) :=
              if_pos ⟨h1, h2, h3, h4, h5, h6, h7⟩
            rw [hif] at hres
            have htd2 : TokenData.mk c = td' :=
              Except.ok.inj (by exact hres)
            refine ⟨alg, rfl, h1, h2, hdkey.1 ▸ h3, hdkey.2 ▸ h4, ?_, ?_, ?_, ?_⟩
            · rw [← htd2]
            · rw [← htd2]; exact h5
            · rw [← htd2]; exact h6
            · rw [← htd2]; exact h7
          · rw [if_neg hcond] at hres
            simp at hres

/-- Witness for C1: the sample verifier accepts `goodToken` at time 0,
and the theorem yields the guaranteed conditions there. -/
theorem verify_requires_signature_audience_issuer_expiry_witness :
    ∃ alg, Algorithm.from_str jwk0.alg = some alg ∧
      goodToken.sigValid = true ∧ goodToken.sigAlg = alg ∧
      goodToken.sigN = jwk0.n ∧ goodToken.sigE = jwk0.e ∧
      goodToken.claims = some (TokenData.mk sampleClaims).claims ∧
      (TokenData.mk sampleClaims).claims.aud = sampleVerifier.config.audience ∧
      (TokenData.mk sampleClaims).claims.iss = sampleVerifier.config.issuer ∧
      (0 : Int) < (TokenData.mk sampleClaims).claims.exp :=
  verify_requires_signature_audience_issuer_expiry sampleVerifier goodToken 0
    ("kid-0") jwk0 (TokenData.mk sampleClaims) (by decide) (by decide) (by decide)

/-- Claim C2: `verify` returns no claims when the token's header does
not parse, when the parsed header carries no kid, or when the carried
kid is absent from the current key map; the signature/claims check is
reached only when the kid resolves. -/
theorem verify_rejects_unresolved_kid (v : JwkVerifier) (t : Token) (now : Int) :
    (decode_header t = none → v.verify t now = none)
    ∧ (∀ h, decode_header t = some h → h.kid = none → v.verify t now = none)
    ∧ (∀ h kid, decode_header t = some h → h.kid = some kid →
        v.get_key kid = none → v.verify t now = none) := by
  refine ⟨?_, ?_, ?_⟩
  · intro hh
    unfold JwkVerifier.verify
    rw [hh]
    rfl
  · intro h hh hk
    unfold JwkVerifier.verify
    rw [hh]
    simp [hk]
  · intro h kid hh hk hkey
    unfold JwkVerifier.verify
    rw [hh]
    simp [hk, hkey]

/-- Witness for C2: the sample verifier rejects a token with an
unparsable header, one with no kid, and one with an unknown kid. -/
theorem verify_rejects_unresolved_kid_witness :
    sampleVerifier.verify badHeaderToken 0 = none
    ∧ sampleVerifier.verify noKidToken 0 = none
    ∧ sampleVerifier.verify unknownKidToken 0 = none :=
  ⟨(verify_rejects_unresolved_kid sampleVerifier badHeaderToken 0).1 (by decide),
    (verify_rejects_unresolved_kid sampleVerifier noKidToken 0).2.1
      (Header.mk none) (by decide) (by decide),
    (verify_rejects_unresolved_kid sampleVerifier unknownKidToken 0).2.2
      (Header.mk (some ("kid-9"))) ("kid-9") (by decide) (by decide) (by decide)⟩

/-- Claim C5: on a successful fetch the returned validity equals exactly
the seconds carried by the max-age directive of the caching-control
metadata, and equals the 60-second default when the directive is absent
or unparsable. -/
theorem fetch_validity_from_max_age (resp : Response) (jwks : Jwks) (n : Nat)
    (hok : fetch_keys (some resp) = .ok jwks) :
    (get_max_age resp.cacheControl = some n → jwks.validity = n)
    ∧ (get_max_age resp.cacheControl = none → jwks.validity = DEFAULT_TIMEOUT) := by
  unfold fetch_keys at hok
  cases hb : resp.body with
  | none => simp [hb] at hok
  | some keys =>
    simp only [hb, Except.ok.injEq] at hok
    subst hok
    constructor
    · intro hma
      simp [hma]
    · intro hma
      simp [hma, DEFAULT_TIMEOUT]

/-- Witness for C5: the repository test's header max-age=20045 yields a
validity of 20045 seconds, and a header with no directive yields 60. -/
theorem fetch_validity_from_max_age_witness :
    ({ keys := [jwk0, jwk1], validity := 20045 } : Jwks).validity = 20045
    ∧ ({ keys := [jwk0, jwk1], validity := 60 } : Jwks).validity = DEFAULT_TIMEOUT :=
  ⟨(fetch_validity_from_max_age respWithMaxAge
        { keys := [jwk0, jwk1], validity := 20045 } 20045 (by rfl)).1 (by decide),
    (fetch_validity_from_max_age respNoDirective
        { keys := [jwk0, jwk1], validity := 60 } 0 (by rfl)).2 (by decide)⟩

/-- Claim C6: the fetch fails with RequestError exactly on transport
failure, fails with ReponseBodyError exactly when the endpoint answered
but the body does not parse into the key-set shape, and otherwise
returns the parsed keys with the derived validity; the single-response
model performs no retry. -/
theorem fetch_error_taxonomy (r : Option Response) :
    (fetch_keys r = .error .RequestError ↔ r = none)
    ∧ (∀ resp, r = some resp →
        (fetch_keys r = .error .ReponseBodyError ↔ resp.body = none))
    ∧ (∀ resp keys, r = some resp → resp.body = some keys →
        fetch_keys r =
          .ok (Jwks.mk keys ((get_max_age resp.cacheControl).getD DEFAULT_TIMEOUT))) := by
  refine ⟨?_, ?_, ?_⟩
  · cases r with
    | none => simp [fetch_keys]
    | some resp =>
      cases hb : resp.body with
      | none => simp [fetch_keys, hb]
      | some keys => simp [fetch_keys, hb]
  · intro resp hr
    subst hr
    cases hb : resp.body with
    | none => simp [fetch_keys, hb]
    | some keys => simp [fetch_keys, hb]
  · intro resp keys hr hb
    subst hr
    simp [fetch_keys, hb]

/-- Witness for C6: transport failure yields RequestError, an
unparsable body yields ReponseBodyError, and a good response yields the
parsed keys with the derived validity. -/
theorem fetch_error_taxonomy_witness :
    fetch_keys none = .error .RequestError
    ∧ fetch_keys (some respBadBody) = .error .ReponseBodyError
    ∧ fetch_keys (some respWithMaxAge) =
        .ok (Jwks.mk [jwk0, jwk1]
          ((get_max_age respWithMaxAge.cacheControl).getD DEFAULT_TIMEOUT)) :=
  ⟨(fetch_error_taxonomy none).1.mpr rfl,
    ((fetch_error_taxonomy (some respBadBody)).2.1 respBadBody rfl).mpr rfl,
    (fetch_error_taxonomy (some respWithMaxAge)).2.2 respWithMaxAge [jwk0, jwk1]
      rfl rfl⟩

/-- Claim C8: a failed initial fetch makes `JwkAuth` construction panic
(both through `new_with_url` and `new`), never yielding a constructed
value or a recoverable error; a constructed `JwkAuth` exists only when
the initial fetch succeeded. -/
theorem initial_fetch_failure_is_fatal (pid url : String) (e : KeyFetchError)
    (r : Except KeyFetchError Jwks) :
    JwkAuth.new_with_url pid url (.error e) = .panicked
    ∧ JwkAuth.new pid (.error e) = .panicked
    ∧ (∀ a, JwkAuth.new_with_url pid url r = .constructed a →
        ∃ jwks, r = .ok jwks) := by
  refine ⟨rfl, rfl, ?_⟩
  intro a h
  cases r with
  | ok jwks => exact ⟨jwks, rfl⟩
  | error e' => exact ConstructOutcome.noConfusion h

/-- Witness for C8: a successful fetch constructs, and the theorem
recovers the success from the constructed outcome. -/
theorem initial_fetch_failure_is_fatal_witness :
    ∃ jwks, (Except.ok jwksSample : Except KeyFetchError Jwks) = .ok jwks :=
  (initial_fetch_failure_is_fatal ("pj") DEFAULT_PUBKEY_URL .RequestError
      (.ok jwksSample)).2.2
    { verifier := JwkVerifier.new jwksSample.keys ("pj") (ISSUER_URL ++ "pj") }
    rfl

end FirebaseToken
